import Mathlib

/-!
Verification of the Köppen climate classifier of MeteostatClimateMapperPublic.

The core under verification is `calculate_koppen_climate_from_normals` in
`src/climate_classifier.py` (lines 37-144), a pure decision procedure over a
pandas DataFrame of monthly climate normals, together with the completeness
guard of its caller `update_markers` in `src/meteostat_functions.py`
(lines 89-95).

Embedding choices:
  * A record is a list of `(month index, row)` pairs, mirroring the DataFrame
    with its integer month index.  A row carries `tavg` and `prcp` as
    `Option ℚ` (`none` models a missing value / pandas NaN) plus an `other`
    field for the columns the classifier never touches (tmin, tmax, wspd,
    pres, tsun, ...).
  * Numbers are rationals; the literals 0.7 and 0.04 of the source become
    7/10 and 1/25.
  * pandas NaN semantics are modelled faithfully: aggregations (`min`,
    `mean`, `max`) skip missing values and return `none` when no value is
    present; `sum` skips missing values and returns 0 on an empty column;
    any comparison involving a missing value is `false` (IEEE NaN
    comparison); `Series.gt(c).sum()` counts the present values above `c`.
-/

namespace ClimateMapper

/-- One row of the monthly-normals DataFrame: average temperature (°C) and
precipitation (mm) may be missing; `other` stands for the remaining columns
(tmin, tmax, wspd, pres, tsun, ...), which the classifier never reads. -/
structure MonthRow where
  tavg : Option ℚ
  prcp : Option ℚ
  other : List (Option ℚ)
deriving DecidableEq, Repr

/-- The monthly-normals DataFrame: month index together with the row data. -/
abbrev Record : Type := List (ℕ × MonthRow)

/-- Float comparison `a < b` with NaN semantics: false if either side is
missing. -/
def olt : Option ℚ → Option ℚ → Bool
  | some a, some b => decide (a < b)
  | _, _ => false

/-- Float comparison `a ≤ b` with NaN semantics: false if either side is
missing. -/
def ole : Option ℚ → Option ℚ → Bool
  | some a, some b => decide (a ≤ b)
  | _, _ => false

/-- Float comparison `a ≥ b` with NaN semantics: false if either side is
missing. -/
def oge : Option ℚ → Option ℚ → Bool
  | some a, some b => decide (b ≤ a)
  | _, _ => false

/-- NaN-propagating addition. -/
def oadd : Option ℚ → Option ℚ → Option ℚ
  | some a, some b => some (a + b)
  | _, _ => none

/-- NaN-propagating multiplication. -/
def omul : Option ℚ → Option ℚ → Option ℚ
  | some a, some b => some (a * b)
  | _, _ => none

/-- NaN-propagating division (only ever used with a nonzero constant
divisor in the source). -/
def odiv : Option ℚ → Option ℚ → Option ℚ
  | some a, some b => some (a / b)
  | _, _ => none

/-- The values of a column that are actually present (pandas `dropna`). -/
def presentVals (xs : List (Option ℚ)) : List ℚ :=
  xs.filterMap id

/-- pandas `Series.sum()`: sum of the present values, 0 when none are. -/
def seriesSum (xs : List (Option ℚ)) : ℚ :=
  (presentVals xs).sum

/-- pandas `Series.mean()`: mean of the present values, NaN when none are. -/
def seriesMean (xs : List (Option ℚ)) : Option ℚ :=
  match presentVals xs with
  | [] => none
  | v :: vs => some ((v :: vs).sum / (v :: vs).length)

/-- pandas `Series.min()`: least present value, NaN when none are. -/
def seriesMin (xs : List (Option ℚ)) : Option ℚ :=
  match presentVals xs with
  | [] => none
  | v :: vs => some (vs.foldl min v)

/-- pandas `Series.max()`: greatest present value, NaN when none are. -/
def seriesMax (xs : List (Option ℚ)) : Option ℚ :=
  match presentVals xs with
  | [] => none
  | v :: vs => some (vs.foldl max v)

/-- pandas `Series.gt(c).sum()`: how many present values exceed `c`
(a comparison with NaN is false, so missing values do not count). -/
def seriesCountGt (c : ℚ) (xs : List (Option ℚ)) : ℕ :=
  (presentVals xs).countP (fun v => decide (c < v))

/-- The `tavg` column of the DataFrame. -/
def tavgCol (data : Record) : List (Option ℚ) :=
  data.map (fun p => p.2.tavg)

/-- The `prcp` column of the DataFrame. -/
def prcpCol (data : Record) : List (Option ℚ) :=
  data.map (fun p => p.2.prcp)

/-- `data[data.index.isin(months)]`. -/
def monthsIn (months : List ℕ) (data : Record) : Record :=
  data.filter (fun p => months.contains p.1)

/-- `min_monthly_temp = data["tavg"].min()` (climate_classifier.py line 41). -/
def min_monthly_temp (data : Record) : Option ℚ :=
  seriesMin (tavgCol data)

/-- `avg_monthly_temp = data["tavg"].mean()` (line 42). -/
def avg_monthly_temp (data : Record) : Option ℚ :=
  seriesMean (tavgCol data)

/-- `max_monthly_temp = data["tavg"].max()` (line 43). -/
def max_monthly_temp (data : Record) : Option ℚ :=
  seriesMax (tavgCol data)

/-- `yearly_prcp = data["prcp"].sum()` (line 44). -/
def yearly_prcp (data : Record) : ℚ :=
  seriesSum (prcpCol data)

/-- `northern_summer_months = [4, 5, 6, 7, 8, 9]` (line 47). -/
def northern_summer_months : List ℕ := [4, 5, 6, 7, 8, 9]

/-- `northern_winter_months = [1, 2, 3, 10, 11, 12]` (line 48). -/
def northern_winter_months : List ℕ := [1, 2, 3, 10, 11, 12]

/-- `northern_summer_mean` (line 51). -/
def northern_summer_mean (data : Record) : Option ℚ :=
  seriesMean (tavgCol (monthsIn northern_summer_months data))

/-- `northern_winter_mean` (line 52). -/
def northern_winter_mean (data : Record) : Option ℚ :=
  seriesMean (tavgCol (monthsIn northern_winter_months data))

/-- The `summer_months` chosen on lines 55-58: the northern-summer set when
`northern_summer_mean >= northern_winter_mean` (false on NaN), otherwise the
northern-winter set. -/
def summer_months (data : Record) : List ℕ :=
  if oge (northern_summer_mean data) (northern_winter_mean data) then
    northern_summer_months
  else
    northern_winter_months

/-- The `winter_months` chosen on lines 55-58. -/
def winter_months (data : Record) : List ℕ :=
  if oge (northern_summer_mean data) (northern_winter_mean data) then
    northern_winter_months
  else
    northern_summer_months

/-- `summer_data = data[data.index.isin(summer_months)]` (line 60). -/
def summer_data (data : Record) : Record :=
  monthsIn (summer_months data) data

/-- `winter_data = data[data.index.isin(winter_months)]` (line 61). -/
def winter_data (data : Record) : Record :=
  monthsIn (winter_months data) data

/-- `summer_prcp = summer_data["prcp"].sum()` (line 64). -/
def summer_prcp (data : Record) : ℚ :=
  seriesSum (prcpCol (summer_data data))

/-- `winter_prcp = winter_data["prcp"].sum()` (line 65). -/
def winter_prcp (data : Record) : ℚ :=
  seriesSum (prcpCol (winter_data data))

/-- The aridity threshold of lines 66-70: `20 * avg_monthly_temp`, plus 280
when `summer_prcp >= 0.7 * yearly_prcp`, else plus 140 when
`winter_prcp < 0.7 * yearly_prcp`, else unadjusted. -/
def prcp_threshold (data : Record) : Option ℚ :=
  let base := omul (some 20) (avg_monthly_temp data)
  if summer_prcp data ≥ 7/10 * yearly_prcp data then
    oadd base (some 280)
  else if winter_prcp data < 7/10 * yearly_prcp data then
    oadd base (some 140)
  else
    base

/-- `min_monthly_prcp = data["prcp"].min()` (line 92). -/
def min_monthly_prcp (data : Record) : Option ℚ :=
  seriesMin (prcpCol data)

/-- `tropical_rain_ratio = 100 - 0.04 * yearly_prcp` (line 96). -/
def tropical_rain_threshold (data : Record) : ℚ :=
  100 - 1/25 * yearly_prcp data

/-- `driest_summer_month = summer_data["prcp"].min()` (line 108). -/
def driest_summer_month (data : Record) : Option ℚ :=
  seriesMin (prcpCol (summer_data data))

/-- `wettest_summer_month = summer_data["prcp"].max()` (line 109). -/
def wettest_summer_month (data : Record) : Option ℚ :=
  seriesMax (prcpCol (summer_data data))

/-- `driest_winter_month = winter_data["prcp"].min()` (line 110). -/
def driest_winter_month (data : Record) : Option ℚ :=
  seriesMin (prcpCol (winter_data data))

/-- `wettest_winter_month = winter_data["prcp"].max()` (line 111). -/
def wettest_winter_month (data : Record) : Option ℚ :=
  seriesMax (prcpCol (winter_data data))

/-- The primary label of the if-chain on lines 74-105: `"E"` when
`max_monthly_temp < 10`; else `"B"` when `yearly_prcp < prcp_threshold`;
else `"A"` when `min_monthly_temp >= 18`; else `"C"` when
`min_monthly_temp >= isotherm` and `"D"` otherwise. -/
def primary_label (data : Record) (isotherm : ℚ) : String :=
  if olt (max_monthly_temp data) (some 10) then "E"
  else if olt (some (yearly_prcp data)) (prcp_threshold data) then "B"
  else if oge (min_monthly_temp data) (some 18) then "A"
  else if oge (min_monthly_temp data) (some isotherm) then "C"
  else "D"

/-- The secondary label of the same if-chain (lines 74-119). -/
def secondary_label (data : Record) (isotherm : ℚ) : String :=
  if olt (max_monthly_temp data) (some 10) then
    if oge (max_monthly_temp data) (some 0) then "T" else "F"
  else if olt (some (yearly_prcp data)) (prcp_threshold data) then
    if olt (some (yearly_prcp data)) (odiv (prcp_threshold data) (some 2)) then "W"
    else "S"
  else if oge (min_monthly_temp data) (some 18) then
    if oge (min_monthly_prcp data) (some 60) then "f"
    else if oge (min_monthly_prcp data) (some (tropical_rain_threshold data)) then "m"
    else "w"
  else
    if oge (wettest_summer_month data) (omul (some 10) (driest_winter_month data)) then "w"
    else if oge (wettest_winter_month data) (omul (some 3) (driest_summer_month data))
        && olt (driest_summer_month data)
             (some (if primary_label data isotherm = "C" then 40 else 30)) then "s"
    else "f"

/-- The tertiary label: `""` by default (line 73), `"h"`/`"k"` in the arid
branch (lines 86-89), `"a"`/`"b"`/`"d"`/`"c"` in the temperate/continental
branch (lines 121-130). -/
def tertiary_label (data : Record) (_isotherm : ℚ) : String :=
  if olt (max_monthly_temp data) (some 10) then ""
  else if olt (some (yearly_prcp data)) (prcp_threshold data) then
    if oge (avg_monthly_temp data) (some 18) then "h" else "k"
  else if oge (min_monthly_temp data) (some 18) then ""
  else
    if seriesCountGt 10 (tavgCol data) ≥ 4 then
      if oge (max_monthly_temp data) (some 22) then "a" else "b"
    else if ole (min_monthly_temp data) (some (-38)) then "d"
    else "c"

/-- The Series returned by `calculate_koppen_climate_from_normals`
(lines 135-144). -/
structure KoppenResult where
  climate_classification : String
  result_min_monthly_temp : Option ℚ
  result_avg_monthly_temp : Option ℚ
  result_max_monthly_temp : Option ℚ
  precipitation_threshold : Option ℚ
  yearly_precipitation : ℚ
deriving DecidableEq, Repr

/-- `calculate_koppen_climate_from_normals(data, isotherm=0)`
(climate_classifier.py lines 37-144). -/
def calculate_koppen_climate_from_normals (data : Record) (isotherm : ℚ := 0) :
    KoppenResult :=
  { climate_classification :=
      primary_label data isotherm ++ secondary_label data isotherm
        ++ tertiary_label data isotherm
    result_min_monthly_temp := min_monthly_temp data
    result_avg_monthly_temp := avg_monthly_temp data
    result_max_monthly_temp := max_monthly_temp data
    precipitation_threshold := prcp_threshold data
    yearly_precipitation := yearly_prcp data }

/-- State-passing form of `calculate_koppen_climate_from_normals`: the
function threads the caller's DataFrame through unchanged, since no
statement of its body (lines 37-144) assigns into `data` — every statement
only reads `data` and binds a local variable. -/
def calculate_koppen_climate_from_normals_state (data : Record) (isotherm : ℚ := 0) :
    Record × KoppenResult :=
  (data, calculate_koppen_climate_from_normals data isotherm)

/-- The completeness guard of `update_markers`
(meteostat_functions.py lines 89-92):
`not normals[["tavg", "prcp"]].isna().any(axis=1).any() and
 len(normals.index) == 12`. -/
def update_markers_guard (normals : Record) : Bool :=
  !(normals.any (fun p => p.2.tavg.isNone || p.2.prcp.isNone))
    && (normals.length == 12)

/-- A valid 12-month record in the sense of the spec (§3): exactly one entry
per month 1-12, with average temperature and precipitation present in every
entry. -/
def ValidRecord (data : Record) : Prop :=
  (data.map Prod.fst).Perm [1, 2, 3, 4, 5, 6, 7, 8, 9, 10, 11, 12] ∧
    ∀ p ∈ data, p.2.tavg.isSome = true ∧ p.2.prcp.isSome = true

/-- The first character of a Köppen code string. -/
def firstLetter (s : String) : Option Char :=
  s.data.head?

/-- A row with both values present and no further columns. -/
def row (t p : ℚ) : MonthRow :=
  MonthRow.mk (some t) (some p) []

/-- A record with every month at the same average temperature and
precipitation (used for concrete scenarios). -/
def constRecord (t p : ℚ) : Record :=
  [(1, row t p), (2, row t p), (3, row t p), (4, row t p), (5, row t p),
   (6, row t p), (7, row t p), (8, row t p), (9, row t p), (10, row t p),
   (11, row t p), (12, row t p)]

/-- An 11-month record: month 7 is absent, every present month has average
temperature 25 °C and precipitation 100 mm. -/
def record_missing_july : Record :=
  [(1, row 25 100), (2, row 25 100), (3, row 25 100), (4, row 25 100),
   (5, row 25 100), (6, row 25 100), (8, row 25 100), (9, row 25 100),
   (10, row 25 100), (11, row 25 100), (12, row 25 100)]

/-- A southern-hemisphere-shaped record: the northern-winter months are the
warm ones (20 °C) and the northern-summer months the cool ones (5 °C). -/
def southernRecord : Record :=
  [(1, row 20 100), (2, row 20 100), (3, row 20 100), (4, row 5 100),
   (5, row 5 100), (6, row 5 100), (7, row 5 100), (8, row 5 100),
   (9, row 5 100), (10, row 20 100), (11, row 20 100), (12, row 20 100)]

/-- A record reaching the temperate/continental branch with coldest month
at -3 °C: month 1 has average temperature -3 °C, every other month 15 °C,
and every month 100 mm of precipitation. -/
def isothermRecord : Record :=
  [(1, row (-3) 100), (2, row 15 100), (3, row 15 100), (4, row 15 100),
   (5, row 15 100), (6, row 15 100), (7, row 15 100), (8, row 15 100),
   (9, row 15 100), (10, row 15 100), (11, row 15 100), (12, row 15 100)]

/-- Exactly one of three propositions holds. -/
def exactlyOne (a b c : Prop) : Prop :=
  (a ∧ ¬b ∧ ¬c) ∨ (¬a ∧ b ∧ ¬c) ∨ (¬a ∧ ¬b ∧ c)

lemma presentVals_tavg_const (t p : ℚ) :
    presentVals (tavgCol (constRecord t p)) = [t, t, t, t, t, t, t, t, t, t, t, t] := rfl

lemma presentVals_prcp_const (t p : ℚ) :
    presentVals (prcpCol (constRecord t p)) = [p, p, p, p, p, p, p, p, p, p, p, p] := rfl

lemma min_temp_const (t p : ℚ) : min_monthly_temp (constRecord t p) = some t := by
  unfold min_monthly_temp seriesMin
  rw [presentVals_tavg_const]
  simp [min_self]

lemma max_temp_const (t p : ℚ) : max_monthly_temp (constRecord t p) = some t := by
  unfold max_monthly_temp seriesMax
  rw [presentVals_tavg_const]
  simp [max_self]

lemma avg_temp_const (t p : ℚ) : avg_monthly_temp (constRecord t p) = some t := by
  unfold avg_monthly_temp seriesMean
  rw [presentVals_tavg_const]
  simp only [List.sum_cons, List.sum_nil, List.length_cons, List.length_nil,
    Option.some.injEq]
  push_cast
  field_simp
  ring

lemma min_prcp_const (t p : ℚ) : min_monthly_prcp (constRecord t p) = some p := by
  unfold min_monthly_prcp seriesMin
  rw [presentVals_prcp_const]
  simp [min_self]

lemma yearly_const (t p : ℚ) : yearly_prcp (constRecord t p) = 12 * p := by
  unfold yearly_prcp seriesSum
  rw [presentVals_prcp_const]
  simp only [List.sum_cons, List.sum_nil]
  ring

lemma nsmean_const (t p : ℚ) : northern_summer_mean (constRecord t p) = some t := by
  unfold northern_summer_mean seriesMean
  have h : presentVals (tavgCol (monthsIn northern_summer_months (constRecord t p)))
      = [t, t, t, t, t, t] := rfl
  rw [h]
  simp only [List.sum_cons, List.sum_nil, List.length_cons, List.length_nil,
    Option.some.injEq]
  push_cast
  field_simp
  ring

lemma nwmean_const (t p : ℚ) : northern_winter_mean (constRecord t p) = some t := by
  unfold northern_winter_mean seriesMean
  have h : presentVals (tavgCol (monthsIn northern_winter_months (constRecord t p)))
      = [t, t, t, t, t, t] := rfl
  rw [h]
  simp only [List.sum_cons, List.sum_nil, List.length_cons, List.length_nil,
    Option.some.injEq]
  push_cast
  field_simp
  ring

lemma summer_months_const (t p : ℚ) :
    summer_months (constRecord t p) = northern_summer_months := by
  unfold summer_months
  rw [nsmean_const, nwmean_const]
  simp [oge]

lemma winter_months_const (t p : ℚ) :
    winter_months (constRecord t p) = northern_winter_months := by
  unfold winter_months
  rw [nsmean_const, nwmean_const]
  simp [oge]

lemma summer_prcp_const (t p : ℚ) : summer_prcp (constRecord t p) = 6 * p := by
  unfold summer_prcp summer_data
  rw [summer_months_const]
  have h : presentVals (prcpCol (monthsIn northern_summer_months (constRecord t p)))
      = [p, p, p, p, p, p] := rfl
  unfold seriesSum
  rw [h]
  simp only [List.sum_cons, List.sum_nil]
  ring

lemma winter_prcp_const (t p : ℚ) : winter_prcp (constRecord t p) = 6 * p := by
  unfold winter_prcp winter_data
  rw [winter_months_const]
  have h : presentVals (prcpCol (monthsIn northern_winter_months (constRecord t p)))
      = [p, p, p, p, p, p] := rfl
  unfold seriesSum
  rw [h]
  simp only [List.sum_cons, List.sum_nil]
  ring

lemma threshold_const_25_100 : prcp_threshold (constRecord 25 100) = some 640 := by
  unfold prcp_threshold
  rw [avg_temp_const, summer_prcp_const, winter_prcp_const, yearly_const]
  norm_num [oadd, omul]

lemma valid_const_25_100 : ValidRecord (constRecord 25 100) := by
  constructor <;> decide

lemma min_temp_rmj : min_monthly_temp record_missing_july = some 25 := by
  unfold min_monthly_temp seriesMin
  have h : presentVals (tavgCol record_missing_july)
      = [25, 25, 25, 25, 25, 25, 25, 25, 25, 25, 25] := rfl
  rw [h]
  simp [min_self]

lemma max_temp_rmj : max_monthly_temp record_missing_july = some 25 := by
  unfold max_monthly_temp seriesMax
  have h : presentVals (tavgCol record_missing_july)
      = [25, 25, 25, 25, 25, 25, 25, 25, 25, 25, 25] := rfl
  rw [h]
  simp [max_self]

lemma avg_temp_rmj : avg_monthly_temp record_missing_july = some 25 := by
  unfold avg_monthly_temp seriesMean
  have h : presentVals (tavgCol record_missing_july)
      = [25, 25, 25, 25, 25, 25, 25, 25, 25, 25, 25] := rfl
  rw [h]
  norm_num

lemma min_prcp_rmj : min_monthly_prcp record_missing_july = some 100 := by
  unfold min_monthly_prcp seriesMin
  have h : presentVals (prcpCol record_missing_july)
      = [100, 100, 100, 100, 100, 100, 100, 100, 100, 100, 100] := rfl
  rw [h]
  simp [min_self]

lemma yearly_rmj : yearly_prcp record_missing_july = 1100 := by
  unfold yearly_prcp seriesSum
  have h : presentVals (prcpCol record_missing_july)
      = [100, 100, 100, 100, 100, 100, 100, 100, 100, 100, 100] := rfl
  rw [h]
  norm_num

lemma nsmean_rmj : northern_summer_mean record_missing_july = some 25 := by
  unfold northern_summer_mean seriesMean
  have h : presentVals (tavgCol (monthsIn northern_summer_months record_missing_july))
      = [25, 25, 25, 25, 25] := rfl
  rw [h]
  norm_num

lemma nwmean_rmj : northern_winter_mean record_missing_july = some 25 := by
  unfold northern_winter_mean seriesMean
  have h : presentVals (tavgCol (monthsIn northern_winter_months record_missing_july))
      = [25, 25, 25, 25, 25, 25] := rfl
  rw [h]
  norm_num

lemma summer_months_rmj : summer_months record_missing_july = northern_summer_months := by
  unfold summer_months
  rw [nsmean_rmj, nwmean_rmj]
  simp [oge]

lemma winter_months_rmj : winter_months record_missing_july = northern_winter_months := by
  unfold winter_months
  rw [nsmean_rmj, nwmean_rmj]
  simp [oge]

lemma summer_prcp_rmj : summer_prcp record_missing_july = 500 := by
  unfold summer_prcp summer_data seriesSum
  rw [summer_months_rmj]
  have h : presentVals (prcpCol (monthsIn northern_summer_months record_missing_july))
      = [100, 100, 100, 100, 100] := rfl
  rw [h]
  norm_num

lemma winter_prcp_rmj : winter_prcp record_missing_july = 600 := by
  unfold winter_prcp winter_data seriesSum
  rw [winter_months_rmj]
  have h : presentVals (prcpCol (monthsIn northern_winter_months record_missing_july))
      = [100, 100, 100, 100, 100, 100] := rfl
  rw [h]
  norm_num

lemma threshold_rmj : prcp_threshold record_missing_july = some 640 := by
  unfold prcp_threshold
  rw [avg_temp_rmj, summer_prcp_rmj, winter_prcp_rmj, yearly_rmj]
  norm_num [oadd, omul]

lemma valid_southern : ValidRecord southernRecord := by
  constructor <;> decide

lemma nsmean_southern : northern_summer_mean southernRecord = some 5 := by
  unfold northern_summer_mean seriesMean
  have h : presentVals (tavgCol (monthsIn northern_summer_months southernRecord))
      = [5, 5, 5, 5, 5, 5] := rfl
  rw [h]
  norm_num

lemma nwmean_southern : northern_winter_mean southernRecord = some 20 := by
  unfold northern_winter_mean seriesMean
  have h : presentVals (tavgCol (monthsIn northern_winter_months southernRecord))
      = [20, 20, 20, 20, 20, 20] := rfl
  rw [h]
  norm_num

lemma valid_iso : ValidRecord isothermRecord := by
  constructor <;> decide

lemma min_temp_iso : min_monthly_temp isothermRecord = some (-3) := by
  unfold min_monthly_temp seriesMin
  have h : presentVals (tavgCol isothermRecord)
      = [-3, 15, 15, 15, 15, 15, 15, 15, 15, 15, 15, 15] := rfl
  rw [h]
  norm_num [List.foldl, min_def]

lemma max_temp_iso : max_monthly_temp isothermRecord = some 15 := by
  unfold max_monthly_temp seriesMax
  have h : presentVals (tavgCol isothermRecord)
      = [-3, 15, 15, 15, 15, 15, 15, 15, 15, 15, 15, 15] := rfl
  rw [h]
  norm_num [List.foldl, max_def]

lemma avg_temp_iso : avg_monthly_temp isothermRecord = some (27/2) := by
  unfold avg_monthly_temp seriesMean
  have h : presentVals (tavgCol isothermRecord)
      = [-3, 15, 15, 15, 15, 15, 15, 15, 15, 15, 15, 15] := rfl
  rw [h]
  norm_num

lemma yearly_iso : yearly_prcp isothermRecord = 1200 := by
  unfold yearly_prcp seriesSum
  have h : presentVals (prcpCol isothermRecord)
      = [100, 100, 100, 100, 100, 100, 100, 100, 100, 100, 100, 100] := rfl
  rw [h]
  norm_num

lemma nsmean_iso : northern_summer_mean isothermRecord = some 15 := by
  unfold northern_summer_mean seriesMean
  have h : presentVals (tavgCol (monthsIn northern_summer_months isothermRecord))
      = [15, 15, 15, 15, 15, 15] := rfl
  rw [h]
  norm_num

lemma nwmean_iso : northern_winter_mean isothermRecord = some 12 := by
  unfold northern_winter_mean seriesMean
  have h : presentVals (tavgCol (monthsIn northern_winter_months isothermRecord))
      = [-3, 15, 15, 15, 15, 15] := rfl
  rw [h]
  norm_num

lemma summer_months_iso : summer_months isothermRecord = northern_summer_months := by
  unfold summer_months
  rw [nsmean_iso, nwmean_iso]
  norm_num [oge]

lemma winter_months_iso : winter_months isothermRecord = northern_winter_months := by
  unfold winter_months
  rw [nsmean_iso, nwmean_iso]
  norm_num [oge]

lemma summer_prcp_iso : summer_prcp isothermRecord = 600 := by
  unfold summer_prcp summer_data seriesSum
  rw [summer_months_iso]
  have h : presentVals (prcpCol (monthsIn northern_summer_months isothermRecord))
      = [100, 100, 100, 100, 100, 100] := rfl
  rw [h]
  norm_num

lemma winter_prcp_iso : winter_prcp isothermRecord = 600 := by
  unfold winter_prcp winter_data seriesSum
  rw [winter_months_iso]
  have h : presentVals (prcpCol (monthsIn northern_winter_months isothermRecord))
      = [100, 100, 100, 100, 100, 100] := rfl
  rw [h]
  norm_num

lemma threshold_iso : prcp_threshold isothermRecord = some 410 := by
  unfold prcp_threshold
  rw [avg_temp_iso, summer_prcp_iso, winter_prcp_iso, yearly_iso]
  norm_num [oadd, omul]

lemma hpolar_iso : olt (max_monthly_temp isothermRecord) (some 10) = false := by
  rw [max_temp_iso]
  norm_num [olt]

lemma harid_iso :
    olt (some (yearly_prcp isothermRecord)) (prcp_threshold isothermRecord) = false := by
  rw [threshold_iso, yearly_iso]
  norm_num [olt]

lemma driest_summer_iso : driest_summer_month isothermRecord = some 100 := by
  unfold driest_summer_month summer_data seriesMin
  rw [summer_months_iso]
  have h : presentVals (prcpCol (monthsIn northern_summer_months isothermRecord))
      = [100, 100, 100, 100, 100, 100] := rfl
  rw [h]
  simp [min_self]

lemma wettest_summer_iso : wettest_summer_month isothermRecord = some 100 := by
  unfold wettest_summer_month summer_data seriesMax
  rw [summer_months_iso]
  have h : presentVals (prcpCol (monthsIn northern_summer_months isothermRecord))
      = [100, 100, 100, 100, 100, 100] := rfl
  rw [h]
  simp [max_self]

lemma driest_winter_iso : driest_winter_month isothermRecord = some 100 := by
  unfold driest_winter_month winter_data seriesMin
  rw [winter_months_iso]
  have h : presentVals (prcpCol (monthsIn northern_winter_months isothermRecord))
      = [100, 100, 100, 100, 100, 100] := rfl
  rw [h]
  simp [min_self]

lemma wettest_winter_iso : wettest_winter_month isothermRecord = some 100 := by
  unfold wettest_winter_month winter_data seriesMax
  rw [winter_months_iso]
  have h : presentVals (prcpCol (monthsIn northern_winter_months isothermRecord))
      = [100, 100, 100, 100, 100, 100] := rfl
  rw [h]
  simp [max_self]

set_option maxRecDepth 100000 in
set_option maxHeartbeats 3200000 in
/-- C9: the record with all 12 months at 25 °C and 100 mm (yearly 1200 mm)
classifies, with the default isotherm, as "Af": it is a valid record, it is
not polar (max temperature 25 is not < 10), not arid (1200 is not below the
computed threshold), its minimum monthly temperature is 25 ≥ 18 (tropical),
its minimum monthly precipitation is 100 ≥ 60 (secondary "f"), and the
tertiary label is empty. -/
theorem c9_tropical_rainforest_scenario :
    ValidRecord (constRecord 25 100) ∧
    yearly_prcp (constRecord 25 100) = 1200 ∧
    olt (max_monthly_temp (constRecord 25 100)) (some 10) = false ∧
    olt (some (yearly_prcp (constRecord 25 100)))
      (prcp_threshold (constRecord 25 100)) = false ∧
    min_monthly_temp (constRecord 25 100) = some 25 ∧
    min_monthly_prcp (constRecord 25 100) = some 100 ∧
    secondary_label (constRecord 25 100) 0 = "f" ∧
    tertiary_label (constRecord 25 100) 0 = "" ∧
    (calculate_koppen_climate_from_normals
      (constRecord 25 100)).climate_classification = "Af" := by
  refine ⟨valid_const_25_100, ?_, ?_, ?_, min_temp_const 25 100,
    min_prcp_const 25 100, ?_, ?_, ?_⟩
  · rw [yearly_const]; norm_num
  · rw [max_temp_const]
    simp only [olt, decide_eq_false_iff_not]
    norm_num
  · rw [threshold_const_25_100, yearly_const]
    simp only [olt, decide_eq_false_iff_not]
    norm_num
  · unfold secondary_label
    rw [max_temp_const, min_temp_const, min_prcp_const, threshold_const_25_100,
      yearly_const]
    simp only [olt, oge, decide_eq_true_eq]
    norm_num
  · unfold tertiary_label
    rw [max_temp_const, min_temp_const, threshold_const_25_100, yearly_const]
    simp only [olt, oge, decide_eq_true_eq]
    norm_num
  · unfold calculate_koppen_climate_from_normals primary_label secondary_label
      tertiary_label
    rw [max_temp_const, min_temp_const, min_prcp_const, threshold_const_25_100,
      yearly_const]
    simp only [olt, oge, decide_eq_true_eq]
    norm_num
    rfl

/-- C10: the state-passing form of `calculate_koppen_climate_from_normals`
returns the caller's record unchanged (no statement of the source function
assigns into `data`), and its result component is exactly the pure
classification, so callers may reuse the record afterwards. -/
theorem c10_input_record_unchanged (data : Record) (isotherm : ℚ) :
    (calculate_koppen_climate_from_normals_state data isotherm).1 = data ∧
    (∀ p ∈ (calculate_koppen_climate_from_normals_state data isotherm).1,
      p ∈ data) ∧
    (calculate_koppen_climate_from_normals_state data isotherm).2 =
      calculate_koppen_climate_from_normals data isotherm :=
  ⟨rfl, fun _ hp => hp, rfl⟩

set_option maxRecDepth 100000 in
set_option maxHeartbeats 3200000 in
/-- C2 counterexample: on the record that is missing month 7 (11 rows,
each with temperature and precipitation present), classification does NOT
fail — `calculate_koppen_climate_from_normals` has no error outcome at all
and returns the ordinary code "Af" together with all summary fields, even
though the caller's completeness guard rejects this record. -/
theorem c2_counterexample_incomplete_record_classifies :
    (¬ ∃ p ∈ record_missing_july, p.1 = 7) ∧
    update_markers_guard record_missing_july = false ∧
    calculate_koppen_climate_from_normals record_missing_july =
      { climate_classification := "Af"
        result_min_monthly_temp := some 25
        result_avg_monthly_temp := some 25
        result_max_monthly_temp := some 25
        precipitation_threshold := some 640
        yearly_precipitation := 1100 } := by
  refine ⟨by decide, by decide, ?_⟩
  unfold calculate_koppen_climate_from_normals primary_label secondary_label
    tertiary_label
  rw [max_temp_rmj, min_temp_rmj, avg_temp_rmj, min_prcp_rmj, threshold_rmj,
    yearly_rmj]
  simp only [olt, oge, decide_eq_true_eq]
  norm_num
  rfl

lemma presentVals_ne_nil (xs : List (Option ℚ)) (hne : xs ≠ [])
    (h : ∀ x ∈ xs, x.isSome = true) : presentVals xs ≠ [] := by
  cases xs with
  | nil => exact absurd rfl hne
  | cons x rest =>
    have hx := h x (List.mem_cons_self x rest)
    obtain ⟨v, hv⟩ := Option.isSome_iff_exists.mp hx
    subst hv
    simp [presentVals]

lemma valid_data_ne_nil (data : Record) (hval : ValidRecord data) :
    data ≠ [] := by
  intro h
  have hlen := hval.1.length_eq
  rw [h] at hlen
  simp at hlen

lemma valid_tavg_present (data : Record) (hval : ValidRecord data) :
    presentVals (tavgCol data) ≠ [] := by
  apply presentVals_ne_nil
  · unfold tavgCol
    simp only [ne_eq, List.map_eq_nil_iff]
    exact valid_data_ne_nil data hval
  · intro x hx
    obtain ⟨p, hp, hpx⟩ := List.mem_map.mp hx
    rw [← hpx]
    exact (hval.2 p hp).1

lemma valid_max_isSome (data : Record) (hval : ValidRecord data) :
    ∃ mx, max_monthly_temp data = some mx := by
  unfold max_monthly_temp seriesMax
  cases hp : presentVals (tavgCol data) with
  | nil => exact absurd hp (valid_tavg_present data hval)
  | cons v vs => exact ⟨vs.foldl max v, rfl⟩

lemma valid_min_isSome (data : Record) (hval : ValidRecord data) :
    ∃ mn, min_monthly_temp data = some mn := by
  unfold min_monthly_temp seriesMin
  cases hp : presentVals (tavgCol data) with
  | nil => exact absurd hp (valid_tavg_present data hval)
  | cons v vs => exact ⟨vs.foldl min v, rfl⟩

lemma valid_avg_isSome (data : Record) (hval : ValidRecord data) :
    ∃ a, avg_monthly_temp data = some a := by
  unfold avg_monthly_temp seriesMean
  cases hp : presentVals (tavgCol data) with
  | nil => exact absurd hp (valid_tavg_present data hval)
  | cons v vs => exact ⟨_, rfl⟩

lemma valid_threshold_isSome (data : Record) (hval : ValidRecord data) :
    ∃ th, prcp_threshold data = some th := by
  obtain ⟨a, ha⟩ := valid_avg_isSome data hval
  simp only [prcp_threshold, ha, omul, oadd]
  split_ifs <;> exact ⟨_, rfl⟩

/-- C1: for every valid 12-month record and every isotherm, the returned
Köppen code starts with exactly one of the letters A, B, C, D, E, chosen by
first-match priority: "E" when the maximum monthly mean temperature is
< 10; otherwise "B" when yearly precipitation is below the precipitation
threshold; otherwise "A" when the minimum monthly mean temperature is ≥ 18;
otherwise "C" or "D". -/
theorem c1_primary_letter_priority (data : Record) (iso : ℚ)
    (hval : ValidRecord data) :
    ∃ mx mn th : ℚ,
      max_monthly_temp data = some mx ∧
      min_monthly_temp data = some mn ∧
      prcp_threshold data = some th ∧
      (∃ c, firstLetter
          ((calculate_koppen_climate_from_normals data iso).climate_classification)
            = some c ∧
          c ∈ (['A', 'B', 'C', 'D', 'E'] : List Char)) ∧
      (mx < 10 →
        firstLetter
          ((calculate_koppen_climate_from_normals data iso).climate_classification)
          = some 'E') ∧
      (¬ mx < 10 → yearly_prcp data < th →
        firstLetter
          ((calculate_koppen_climate_from_normals data iso).climate_classification)
          = some 'B') ∧
      (¬ mx < 10 → ¬ yearly_prcp data < th → 18 ≤ mn →
        firstLetter
          ((calculate_koppen_climate_from_normals data iso).climate_classification)
          = some 'A') ∧
      (¬ mx < 10 → ¬ yearly_prcp data < th → ¬ 18 ≤ mn →
        firstLetter
          ((calculate_koppen_climate_from_normals data iso).climate_classification)
            = some 'C' ∨
        firstLetter
          ((calculate_koppen_climate_from_normals data iso).climate_classification)
            = some 'D') := by
  obtain ⟨mx, hmx⟩ := valid_max_isSome data hval
  obtain ⟨mn, hmn⟩ := valid_min_isSome data hval
  obtain ⟨th, hth⟩ := valid_threshold_isSome data hval
  have key : firstLetter
      ((calculate_koppen_climate_from_normals data iso).climate_classification)
      = firstLetter (primary_label data iso) := by
    show firstLetter (primary_label data iso ++ secondary_label data iso
      ++ tertiary_label data iso) = firstLetter (primary_label data iso)
    unfold primary_label
    split_ifs <;> rfl
  unfold primary_label at key
  rw [hmx, hmn, hth] at key
  simp only [olt, oge, decide_eq_true_eq] at key
  refine ⟨mx, mn, th, hmx, hmn, hth, ?_, ?_, ?_, ?_, ?_⟩
  · split_ifs at key <;> exact ⟨_, key, by decide⟩
  · intro h1
    rw [if_pos h1] at key
    exact key
  · intro h1 h2
    rw [if_neg h1, if_pos h2] at key
    exact key
  · intro h1 h2 h3
    rw [if_neg h1, if_neg h2, if_pos h3] at key
    exact key
  · intro h1 h2 h3
    rw [if_neg h1, if_neg h2, if_neg h3] at key
    by_cases h4 : iso ≤ mn
    · exact Or.inl (by rw [if_pos h4] at key; exact key)
    · exact Or.inr (by rw [if_neg h4] at key; exact key)

/-- Witness for C1 at the all-25-°C/100-mm record with isotherm 0. -/
theorem c1_primary_letter_priority_witness :
    ∃ mx mn th : ℚ,
      max_monthly_temp (constRecord 25 100) = some mx ∧
      min_monthly_temp (constRecord 25 100) = some mn ∧
      prcp_threshold (constRecord 25 100) = some th ∧
      (∃ c, firstLetter
          ((calculate_koppen_climate_from_normals
            (constRecord 25 100) 0).climate_classification) = some c ∧
        c ∈ (['A', 'B', 'C', 'D', 'E'] : List Char)) ∧
      (mx < 10 →
        firstLetter
          ((calculate_koppen_climate_from_normals
            (constRecord 25 100) 0).climate_classification) = some 'E') ∧
      (¬ mx < 10 → yearly_prcp (constRecord 25 100) < th →
        firstLetter
          ((calculate_koppen_climate_from_normals
            (constRecord 25 100) 0).climate_classification) = some 'B') ∧
      (¬ mx < 10 → ¬ yearly_prcp (constRecord 25 100) < th → 18 ≤ mn →
        firstLetter
          ((calculate_koppen_climate_from_normals
            (constRecord 25 100) 0).climate_classification) = some 'A') ∧
      (¬ mx < 10 → ¬ yearly_prcp (constRecord 25 100) < th → ¬ 18 ≤ mn →
        firstLetter
          ((calculate_koppen_climate_from_normals
            (constRecord 25 100) 0).climate_classification) = some 'C' ∨
        firstLetter
          ((calculate_koppen_climate_from_normals
            (constRecord 25 100) 0).climate_classification) = some 'D') :=
  c1_primary_letter_priority (constRecord 25 100) 0 valid_const_25_100

/-- C3: for every valid record, the precipitation threshold equals 20 times
the mean monthly temperature, plus 280 when summer precipitation is ≥ 0.7
of yearly precipitation, else plus 140 when winter precipitation is < 0.7
of yearly precipitation, else plus 0; this value is the reported
precipitation threshold and is the cutoff of the arid (B) test. -/
theorem c3_precipitation_threshold (data : Record) (iso a : ℚ)
    (hval : ValidRecord data)
    (ha : avg_monthly_temp data = some a) :
    prcp_threshold data =
      some (20 * a +
        (if summer_prcp data ≥ 7/10 * yearly_prcp data then 280
         else if winter_prcp data < 7/10 * yearly_prcp data then 140
         else 0)) ∧
    (calculate_koppen_climate_from_normals data iso).precipitation_threshold
      = prcp_threshold data ∧
    (olt (max_monthly_temp data) (some 10) = false →
      (primary_label data iso = "B" ↔
        olt (some (yearly_prcp data)) (prcp_threshold data) = true)) := by
  refine ⟨?_, rfl, ?_⟩
  · simp only [prcp_threshold, ha, omul, oadd]
    split_ifs <;> norm_num
  · intro hpolar
    unfold primary_label
    rw [hpolar]
    simp only [Bool.false_eq_true, if_false]
    by_cases h : olt (some (yearly_prcp data)) (prcp_threshold data) = true
    · simp [h]
    · simp only [h, if_false]
      simp only [Bool.not_eq_true] at h
      constructor
      · intro hB
        split_ifs at hB <;> simp_all
      · intro hB
        exact Bool.noConfusion hB

/-- Witness for C3 at the all-25-°C/100-mm record with isotherm 0. -/
theorem c3_precipitation_threshold_witness :
    prcp_threshold (constRecord 25 100) =
      some (20 * 25 +
        (if summer_prcp (constRecord 25 100)
            ≥ 7/10 * yearly_prcp (constRecord 25 100) then 280
         else if winter_prcp (constRecord 25 100)
            < 7/10 * yearly_prcp (constRecord 25 100) then 140
         else 0)) :=
  (c3_precipitation_threshold (constRecord 25 100) 0 25 valid_const_25_100
    (avg_temp_const 25 100)).1

/-- C4: the classifier compares the mean temperature of the fixed set
{Apr..Sep} with that of {Jan..Mar, Oct..Dec}; the warmer set is used as
summer and the other as winter in all downstream computations (seasonal
precipitation sums, driest/wettest seasonal months), with ties resolving to
the northern-summer set. -/
theorem c4_hemisphere_detection (data : Record) (s w : ℚ)
    (hval : ValidRecord data)
    (hs : northern_summer_mean data = some s)
    (hw : northern_winter_mean data = some w) :
    (w ≤ s →
      summer_months data = northern_summer_months ∧
      winter_months data = northern_winter_months) ∧
    (s < w →
      summer_months data = northern_winter_months ∧
      winter_months data = northern_summer_months) ∧
    summer_data data = monthsIn (summer_months data) data ∧
    winter_data data = monthsIn (winter_months data) data ∧
    summer_prcp data = seriesSum (prcpCol (summer_data data)) ∧
    winter_prcp data = seriesSum (prcpCol (winter_data data)) ∧
    driest_summer_month data = seriesMin (prcpCol (summer_data data)) ∧
    wettest_summer_month data = seriesMax (prcpCol (summer_data data)) ∧
    driest_winter_month data = seriesMin (prcpCol (winter_data data)) ∧
    wettest_winter_month data = seriesMax (prcpCol (winter_data data)) := by
  refine ⟨?_, ?_, rfl, rfl, rfl, rfl, rfl, rfl, rfl, rfl⟩
  · intro h
    unfold summer_months winter_months
    rw [hs, hw]
    simp [oge, h]
  · intro h
    unfold summer_months winter_months
    rw [hs, hw]
    simp [oge, not_le.mpr h]

/-- Witness for C4 at the southern-hemisphere-shaped record: the
northern-winter set has the higher mean (20 > 5), so it is used as
summer. -/
theorem c4_hemisphere_detection_witness :
    summer_months southernRecord = northern_winter_months ∧
    winter_months southernRecord = northern_summer_months :=
  (c4_hemisphere_detection southernRecord 5 20 valid_southern
    nsmean_southern nwmean_southern).2.1 (by norm_num)

/-- C5 counterexample: on the valid record with all months at 25 °C and
0 mm (summer, winter and yearly precipitation all 0), the first condition
(summer ≥ 70% of yearly) and the third condition as stated in the claim
(winter ≥ 70% of yearly) hold simultaneously, so it is false that exactly
one of the three conditions holds. -/
theorem c5_counterexample_zero_precipitation :
    ValidRecord (constRecord 25 0) ∧
    summer_prcp (constRecord 25 0) + winter_prcp (constRecord 25 0)
      = yearly_prcp (constRecord 25 0) ∧
    ¬ exactlyOne
        (summer_prcp (constRecord 25 0) ≥ 7/10 * yearly_prcp (constRecord 25 0))
        (winter_prcp (constRecord 25 0) < 7/10 * yearly_prcp (constRecord 25 0) ∧
          summer_prcp (constRecord 25 0) < 7/10 * yearly_prcp (constRecord 25 0))
        (winter_prcp (constRecord 25 0) ≥ 7/10 * yearly_prcp (constRecord 25 0)) := by
  refine ⟨by constructor <;> decide, ?_, ?_⟩
  · rw [summer_prcp_const, winter_prcp_const, yearly_const]
    ring
  · rw [summer_prcp_const, winter_prcp_const, yearly_const]
    unfold exactlyOne
    norm_num

/-- C5 (amended): with the third condition carrying the same "summer below
70%" guard as the second, exactly one of the three aridity-adjustment
conditions holds for every valid record whose summer and winter
precipitation sum to the yearly precipitation, and the three conditions
select the three threshold adjustments +280 / +140 / +0 respectively. -/
theorem c5_amended_adjustment_branches (data : Record)
    (hval : ValidRecord data)
    (hsum : summer_prcp data + winter_prcp data = yearly_prcp data) :
    exactlyOne
      (summer_prcp data ≥ 7/10 * yearly_prcp data)
      (winter_prcp data < 7/10 * yearly_prcp data ∧
        summer_prcp data < 7/10 * yearly_prcp data)
      (winter_prcp data ≥ 7/10 * yearly_prcp data ∧
        summer_prcp data < 7/10 * yearly_prcp data) ∧
    (summer_prcp data ≥ 7/10 * yearly_prcp data →
      prcp_threshold data
        = oadd (omul (some 20) (avg_monthly_temp data)) (some 280)) ∧
    (winter_prcp data < 7/10 * yearly_prcp data ∧
        summer_prcp data < 7/10 * yearly_prcp data →
      prcp_threshold data
        = oadd (omul (some 20) (avg_monthly_temp data)) (some 140)) ∧
    (winter_prcp data ≥ 7/10 * yearly_prcp data ∧
        summer_prcp data < 7/10 * yearly_prcp data →
      prcp_threshold data = omul (some 20) (avg_monthly_temp data)) := by
  refine ⟨?_, ?_, ?_, ?_⟩
  · unfold exactlyOne
    by_cases h1 : summer_prcp data ≥ 7/10 * yearly_prcp data
    · exact Or.inl ⟨h1, fun h => absurd h1 (not_le.mpr h.2),
        fun h => absurd h1 (not_le.mpr h.2)⟩
    · have h1l : summer_prcp data < 7/10 * yearly_prcp data := not_le.mp h1
      by_cases h2 : winter_prcp data < 7/10 * yearly_prcp data
      · exact Or.inr (Or.inl ⟨h1, ⟨h2, h1l⟩,
          fun h => absurd h2 (not_lt.mpr h.1)⟩)
      · exact Or.inr (Or.inr ⟨h1, fun h => absurd h.1 h2, ⟨not_lt.mp h2, h1l⟩⟩)
  · intro h
    simp only [prcp_threshold]
    rw [if_pos h]
  · intro h
    simp only [prcp_threshold]
    rw [if_neg (not_le.mpr h.2), if_pos h.1]
  · intro h
    simp only [prcp_threshold]
    rw [if_neg (not_le.mpr h.2), if_neg (not_lt.mpr h.1)]

/-- Witness for C5 (amended) at the all-25-°C/100-mm record. -/
theorem c5_amended_adjustment_branches_witness :
    exactlyOne
      (summer_prcp (constRecord 25 100)
        ≥ 7/10 * yearly_prcp (constRecord 25 100))
      (winter_prcp (constRecord 25 100)
          < 7/10 * yearly_prcp (constRecord 25 100) ∧
        summer_prcp (constRecord 25 100)
          < 7/10 * yearly_prcp (constRecord 25 100))
      (winter_prcp (constRecord 25 100)
          ≥ 7/10 * yearly_prcp (constRecord 25 100) ∧
        summer_prcp (constRecord 25 100)
          < 7/10 * yearly_prcp (constRecord 25 100)) :=
  (c5_amended_adjustment_branches (constRecord 25 100) valid_const_25_100
    (by rw [summer_prcp_const, winter_prcp_const, yearly_const]; ring)).1

/-- C6: a record is polar (primary "E") exactly when its maximum monthly
mean temperature is strictly below 10 (so a maximum of exactly 10 is not
polar); within E the secondary label is "T" when the maximum is ≥ 0 and
"F" otherwise, the tertiary label is empty, and a record whose maximum
monthly temperature is -10 (e.g. every month at -10) yields "EF". -/
theorem c6_polar_classification (data : Record) (iso mx : ℚ)
    (hval : ValidRecord data)
    (hmx : max_monthly_temp data = some mx) :
    (primary_label data iso = "E" ↔ mx < 10) ∧
    (mx < 10 →
      secondary_label data iso = (if 0 ≤ mx then "T" else "F") ∧
      tertiary_label data iso = "") ∧
    (mx = -10 →
      (calculate_koppen_climate_from_normals data iso).climate_classification
        = "EF") := by
  refine ⟨?_, ?_, ?_⟩
  · unfold primary_label
    rw [hmx]
    simp only [olt, decide_eq_true_eq]
    by_cases h : mx < 10
    · simp [h]
    · rw [if_neg h]
      simp only [h, iff_false]
      split_ifs <;> decide
  · intro h
    constructor
    · unfold secondary_label
      rw [hmx]
      simp only [olt, oge, decide_eq_true_eq]
      rw [if_pos h]
    · unfold tertiary_label
      rw [hmx]
      simp only [olt, decide_eq_true_eq]
      rw [if_pos h]
  · intro h
    subst h
    show primary_label data iso ++ secondary_label data iso
      ++ tertiary_label data iso = "EF"
    unfold primary_label secondary_label tertiary_label
    rw [hmx]
    simp only [olt, oge, decide_eq_true_eq]
    rw [if_pos (by norm_num : (-10 : ℚ) < 10),
      if_pos (by norm_num : (-10 : ℚ) < 10),
      if_pos (by norm_num : (-10 : ℚ) < 10),
      if_neg (by norm_num : ¬ ((0 : ℚ) ≤ -10))]
    rfl

/-- Witness for C6 at the record with every month at -10 °C and 50 mm. -/
theorem c6_polar_classification_witness :
    (calculate_koppen_climate_from_normals
      (constRecord (-10) 50) 0).climate_classification = "EF" :=
  (c6_polar_classification (constRecord (-10) 50) 0 (-10)
    (by constructor <;> decide) (max_temp_const (-10) 50)).2.2 rfl

/-- C7: in the temperate/continental fallback branch the primary letter is
"C" when the minimum monthly mean temperature is ≥ the caller-supplied
isotherm and "D" otherwise (boundary inclusive); in particular a record
reaching this branch with minimum -3 gets "D" at isotherm 0 and "C" at
isotherm -3. -/
theorem c7_isotherm_boundary (data : Record) (iso mn : ℚ)
    (hval : ValidRecord data)
    (hmn : min_monthly_temp data = some mn)
    (hpolar : olt (max_monthly_temp data) (some 10) = false)
    (harid : olt (some (yearly_prcp data)) (prcp_threshold data) = false)
    (htrop : ¬ 18 ≤ mn) :
    (primary_label data iso = if iso ≤ mn then "C" else "D") ∧
    (mn = -3 →
      primary_label data 0 = "D" ∧ primary_label data (-3) = "C") := by
  have hgen : ∀ i : ℚ, primary_label data i = if i ≤ mn then "C" else "D" := by
    intro i
    unfold primary_label
    rw [hpolar, harid, hmn]
    simp only [Bool.false_eq_true, if_false, oge, decide_eq_true_eq]
    rw [if_neg htrop]
  refine ⟨hgen iso, fun h => ⟨?_, ?_⟩⟩
  · rw [hgen 0, h]
    norm_num
  · rw [hgen (-3), h]
    norm_num

/-- Witness for C7 at the record whose coldest month is -3 °C and which
reaches the temperate/continental branch. -/
theorem c7_isotherm_boundary_witness :
    primary_label isothermRecord 0 = "D" ∧
    primary_label isothermRecord (-3) = "C" :=
  (c7_isotherm_boundary isothermRecord 0 (-3) valid_iso min_temp_iso
    hpolar_iso harid_iso (by norm_num)).2 rfl

/-- C8: in the temperate/continental branch, the secondary label is "w"
when the wettest summer month is ≥ 10 times the driest winter month;
otherwise "s" when the wettest winter month is ≥ 3 times the driest summer
month and the driest summer month is below 40 mm for primary "C" (30 mm for
primary "D"); otherwise "f". -/
theorem c8_temperate_secondary (data : Record) (iso mn ds ws dw ww : ℚ)
    (hval : ValidRecord data)
    (hmn : min_monthly_temp data = some mn)
    (hpolar : olt (max_monthly_temp data) (some 10) = false)
    (harid : olt (some (yearly_prcp data)) (prcp_threshold data) = false)
    (htrop : ¬ 18 ≤ mn)
    (hds : driest_summer_month data = some ds)
    (hws : wettest_summer_month data = some ws)
    (hdw : driest_winter_month data = some dw)
    (hww : wettest_winter_month data = some ww) :
    secondary_label data iso =
      if 10 * dw ≤ ws then "w"
      else if 3 * ds ≤ ww ∧
          ds < (if primary_label data iso = "C" then 40 else 30) then "s"
      else "f" := by
  unfold secondary_label
  rw [hpolar, harid, hmn, hds, hws, hdw, hww]
  simp only [Bool.false_eq_true, if_false, oge, olt, omul, Bool.and_eq_true,
    decide_eq_true_eq]
  rw [if_neg htrop]

/-- Witness for C8 at the record whose seasonal extremes are all 100 mm
(neither dry-winter nor dry-summer: secondary "f"). -/
theorem c8_temperate_secondary_witness :
    secondary_label isothermRecord 0 = "f" :=
  (c8_temperate_secondary isothermRecord 0 (-3) 100 100 100 100 valid_iso
    min_temp_iso hpolar_iso harid_iso (by norm_num) driest_summer_iso
    wettest_summer_iso driest_winter_iso wettest_winter_iso).trans
    (by norm_num)

/-- C2 (amended): the core raises no error (it is a total function of the
record); completeness is instead enforced by the caller `update_markers`,
whose guard accepts a record exactly when it has 12 rows and every row has
both average temperature and precipitation present. -/
theorem c2_caller_guard_iff_complete (normals : Record) :
    update_markers_guard normals = true ↔
      (normals.length = 12 ∧
        ∀ p ∈ normals, p.2.tavg.isSome = true ∧ p.2.prcp.isSome = true) := by
  simp [update_markers_guard, Option.isSome_iff_ne_none]
  tauto

end ClimateMapper
